import Mathlib

/-
Verification of the HPonzi frontend's unlock-session logic.

The development shallowly embeds the unlock-related functions of the
repository: the `UnlockStatus` snapshot shape, the two
`checkIfTokensUnlocked` implementations (contract.ts and wallet.ts),
`revealNumber`'s outcome/error classification, the demo ("simulated")
backend's state transitions from the dashboard component, the commit
button guard of the commit-reveal component, and `formatTimeRemaining`.
Timestamps are epoch seconds as naturals (or integers where the source
subtracts), token amounts are exact rationals (raw wei naturals on
chain, `formatEther` rationals in snapshots), and transport failures
are an `Except` error channel.
-/

namespace HPonzi

/-- The UnlockStatus snapshot returned by checkIfTokensUnlocked and stored
by the dashboard (contract.ts 60-66, part_001 30-36): derived unlock flag,
window end, formatted unlocked amount, cooldown end, commit presence. -/
structure UnlockStatus where
  isUnlocked : Bool
  unlockedUntil : Nat
  unlockedAmount : ℚ
  nextAttemptTime : Nat
  hasCommit : Bool
deriving Repr, DecidableEq

/-- The four per-account contract reads fetched together by
checkIfTokensUnlocked (contract.ts 70-75): snapshotUnlockedUntil,
unlockedTokenAmount (raw wei), snapshotLastUnlockAttempt, and the commit
hash, with 0 encoding bytes32 HashZero. -/
structure ChainState where
  snapshotUnlockedUntil : Nat
  unlockedTokenAmount : Nat
  snapshotLastUnlockAttempt : Nat
  commitHash : Nat
deriving Repr, DecidableEq

/-- ethers.utils.formatEther: a raw wei amount rendered in ether units,
modelled as the exact rational wei / 10^18. -/
def formatEther (wei : Nat) : ℚ := (wei : ℚ) / 10 ^ 18

/-- The snapshot record built from the four reads and the clock; this is the
record literal of contract.ts 80-86, byte-identical to wallet.ts 171-177. -/
def unlockSnapshot (c : ChainState) (now : Nat) : UnlockStatus :=
  { isUnlocked := decide (now ≤ c.snapshotUnlockedUntil) && decide (0 < c.unlockedTokenAmount)
    unlockedUntil := c.snapshotUnlockedUntil
    unlockedAmount := formatEther c.unlockedTokenAmount
    nextAttemptTime := c.snapshotLastUnlockAttempt + 24 * 60 * 60
    hasCommit := decide (c.commitHash ≠ 0) }

namespace Contract

/-- checkIfTokensUnlocked (contract.ts 60-87): no try/catch, so a failure of
the underlying reads propagates to the caller unchanged. -/
def checkIfTokensUnlocked (reads : Except String ChainState) (now : Nat) :
    Except String UnlockStatus :=
  match reads with
  | Except.error e => Except.error e
  | Except.ok c => Except.ok (unlockSnapshot c now)

end Contract

namespace Wallet

/-- The all-zero locked snapshot that wallet.ts fabricates in its catch
block (wallet.ts 181-187). -/
def defaultUnlockStatus : UnlockStatus :=
  { isUnlocked := false, unlockedUntil := 0, unlockedAmount := 0
    nextAttemptTime := 0, hasCommit := false }

/-- checkIfTokensUnlocked (wallet.ts 150-189): same reads and record as the
contract.ts version, but wrapped in try/catch; on any failure it returns the
default snapshot instead of failing. -/
def checkIfTokensUnlocked (reads : Except String ChainState) (now : Nat) :
    UnlockStatus :=
  match reads with
  | Except.ok c => unlockSnapshot c now
  | Except.error _ => defaultUnlockStatus

end Wallet

namespace Dashboard

/-- The demo wallet balance: handleConnect's demo branch sets balance
"1000.0" (part_001 98) and no demo code path ever mutates it (demo
refreshStatus returns early, demo transfer only toasts). -/
def demoBalance : ℚ := 1000

/-- handleDemoReveal (part_001 251-269): the simulated backend's state
transition for a reveal outcome, replacing the stored snapshot. -/
def handleDemoReveal (success : Bool) (now : Nat) : UnlockStatus :=
  if success then
    { isUnlocked := true, unlockedUntil := now + 24 * 60 * 60
      unlockedAmount := demoBalance, nextAttemptTime := 0, hasCommit := false }
  else
    { isUnlocked := false, unlockedUntil := 0, unlockedAmount := 0
      nextAttemptTime := now + 24 * 60 * 60, hasCommit := false }

/-- handleUnlock's demo branch (part_001 226-240): the snapshot written on a
simulated successful unlock. -/
def handleUnlockDemo (now : Nat) : UnlockStatus :=
  { isUnlocked := true, unlockedUntil := now + 24 * 60 * 60
    unlockedAmount := demoBalance, nextAttemptTime := 0, hasCommit := false }

/-- handleDemoCommit (part_001 243-248): only flips hasCommit on. -/
def handleDemoCommit (prev : UnlockStatus) : UnlockStatus :=
  { prev with hasCommit := true }

/-- refreshStatus's live path (part_001 40-59): reads balanceOf and the
unlock snapshot from the ledger and replaces the cached pair; the reads are
view calls, so the ledger state is returned unchanged. -/
def refreshStatus (c : ChainState) (bal : Nat) (now : Nat) :
    (ℚ × UnlockStatus) × ChainState :=
  ((formatEther bal, unlockSnapshot c now), c)

end Dashboard

/-- Char-list test: does the second list occur at the head of the first?
Used to model JavaScript's String.includes. -/
def strStarts : List Char → List Char → Bool
  | _, [] => true
  | [], _ :: _ => false
  | a :: as, b :: bs => a == b && strStarts as bs

/-- Char-list test: does the second list occur anywhere in the first? -/
def strHas : List Char → List Char → Bool
  | [], n => strStarts [] n
  | h :: t, n => strStarts (h :: t) n || strHas t n

/-- JavaScript's error.message.includes(sub) substring test. -/
def includes (s sub : String) : Bool := strHas s.data sub.data

/-- The revert-reason classification in revealNumber's catch block
(contract.ts 120-142, wallet.ts 258-283): the first matching substring of
error.message selects the user-facing failureReason, with the catch-all
"Transaction failed" for every other thrown error. -/
def revealErrorMessage (msg : String) : String :=
  if includes msg ("Only one attempt per day") then
    ("You can only attempt to unlock once per day")
  else if includes msg ("No commit found") then
    ("No commit found. Please commit a number first")
  else if includes msg ("Wait at least one block") then
    ("Please wait at least one block after committing")
  else if includes msg ("Hash does not match") then
    ("The number doesn\x27t match your committed hash")
  else if includes msg ("Commit expired") then
    ("Your commit has expired. Please commit again")
  else if includes msg ("Unlock attempt failed") then
    ("Unlock attempt failed. You had a 20% chance of success (random number not divisible by 5)")
  else ("Transaction failed")

/-- Result of the dispatched revealAndUnlock transaction as seen by
revealNumber: either a mined receipt (with or without the TokensUnlocked
event among its events) or a thrown error carrying error.message — a revert
reason, a transport failure, or a wallet-side rejection of signing. -/
inductive TxOutcome where
  | confirmed (txHash : String) (hasUnlockEvent : Bool)
  | thrown (message : String)
deriving Repr, DecidableEq

/-- The record revealNumber resolves with (contract.ts 116-119 and 138-142). -/
structure RevealResult where
  success : Bool
  hash : String
  error : Option String
deriving Repr, DecidableEq

namespace Contract

/-- revealNumber (contract.ts 101-144; wallet.ts 227-284 is identical up to
logging): a mined receipt succeeds iff the TokensUnlocked event is present;
every thrown error — revert, transport failure, or user rejection alike — is
caught and returned as a success = false record with a classified message. -/
def revealNumber (call : TxOutcome) : RevealResult :=
  match call with
  | TxOutcome.confirmed txHash hasUnlockEvent =>
      { success := hasUnlockEvent, hash := txHash, error := none }
  | TxOutcome.thrown msg =>
      { success := false, hash := (""), error := some (revealErrorMessage msg) }

/-- formatTimeRemaining (contract.ts 198-208; wallet.ts 362-373). -/
def formatTimeRemaining (timestamp now : Int) : String :=
  let diff := timestamp - now
  if diff ≤ 0 then ("Expired")
  else
    let hours := diff / 3600
    let minutes := diff % 3600 / 60
    toString hours ++ ("h ") ++ toString minutes ++ ("m")

end Contract

namespace CommitReveal

/-- inCooldown (commit-reveal.tsx 295-296). -/
def inCooldown (now nextAttemptTime : Nat) : Bool := decide (now < nextAttemptTime)

/-- The commit button's disabled guard (commit-reveal.tsx 362):
!number || isCommitting || isRevealing || hasCommit || (inCooldown && !demoMode). -/
def commitDisabled (hasNumber cmt rvl : Bool) (s : UnlockStatus) (now : Nat)
    (demoMode : Bool) : Bool :=
  !hasNumber || cmt || rvl || s.hasCommit ||
    (inCooldown now s.nextAttemptTime && !demoMode)

/-- What a commit attempt dispatches: nothing (guard blocked it), the demo
simulation (no ledger contact), or the live commitHash ledger call. -/
inductive CommitAction where
  | blocked
  | demoSimulated
  | ledgerCommit (n : Int)
deriving Repr, DecidableEq

/-- The commit dispatch path: handleCommit (commit-reveal.tsx 71-124) is
reachable only through the button guarded at 360-363; when invoked, the demo
branch simulates locally and the live branch dispatches commitNumber. -/
def commitFlow (hasNumber cmt rvl : Bool) (s : UnlockStatus) (now : Nat)
    (demoMode : Bool) (n : Int) : CommitAction :=
  if commitDisabled hasNumber cmt rvl s now demoMode then CommitAction.blocked
  else if demoMode then CommitAction.demoSimulated
  else CommitAction.ledgerCommit n

/-- The demo reveal draw (commit-reveal.tsx 145): success = Math.random() < 0.2,
with the uniform draw modelled as an exact rational. -/
def demoRevealSuccess (r : ℚ) : Bool := decide (r < 0.2)

/-- The demo reveal path (commit-reveal.tsx 141-171 feeding part_001's
handleDemoReveal): the replaced snapshot and the reported outcome. -/
def handleRevealDemo (r : ℚ) (now : Nat) : UnlockStatus × Bool :=
  (Dashboard.handleDemoReveal (demoRevealSuccess r) now, demoRevealSuccess r)

end CommitReveal

/-- Modelled from the spec: the deployed contract's storage transition on a
reveal with outcome failure is not part of this repository — src holds only
the ABI strings and the call sites. Spec 4.1: "On outcome failure, the commit
slot is cleared (the contract consumes the attempt regardless of outcome) and
nextAttemptTime = now + 24h"; since nextAttemptTime is derived as
lastAttempt + 24h, the contract records lastAttempt := now, and the
unlock-window fields are untouched. -/
def liveRevealFail (c : ChainState) (now : Nat) : ChainState :=
  { c with commitHash := 0, snapshotLastUnlockAttempt := now }

/-- A formatted wei amount is positive exactly when the raw wei amount is. -/
theorem formatEther_pos_iff (wei : Nat) : 0 < formatEther wei ↔ 0 < wei := by
  unfold formatEther
  constructor
  · intro h
    rcases Nat.eq_zero_or_pos wei with h0 | h0
    · subst h0
      norm_num at h
    · exact h0
  · intro h
    exact div_pos (by exact_mod_cast h) (by positivity)

/-- A string ending in the character m is never the string Expired. -/
theorem append_m_ne_expired (s : String) : s ++ ("m") ≠ ("Expired") := by
  intro h
  have hd : (s ++ ("m")).data = ("Expired").data := congrArg String.data h
  have hsplit : (s ++ ("m")).data = s.data ++ ['m'] := by
    cases s
    rfl
  rw [hsplit] at hd
  have h2 : (s.data ++ ['m']).getLast? = (("Expired").data).getLast? := by rw [hd]
  rw [List.getLast?_concat] at h2
  have h3 : (("Expired").data).getLast? = some ('d') := rfl
  rw [h3] at h2
  exact absurd (Option.some.inj h2) (by decide)

/-- C1: every snapshot produced by the live checkIfTokensUnlocked and every
snapshot produced by the demo reveal path has isUnlocked equal, at the time
the snapshot is produced, to (now ≤ unlockedUntil AND unlockedAmount > 0);
the flag is computed from those fields, never read from storage. -/
theorem isUnlocked_always_derived (c : ChainState) (now : Nat) (b : Bool) :
    Contract.checkIfTokensUnlocked (Except.ok c) now
      = Except.ok (unlockSnapshot c now)
  ∧ ((unlockSnapshot c now).isUnlocked = true ↔
      now ≤ (unlockSnapshot c now).unlockedUntil ∧
        0 < (unlockSnapshot c now).unlockedAmount)
  ∧ ((Dashboard.handleDemoReveal b now).isUnlocked = true ↔
      now ≤ (Dashboard.handleDemoReveal b now).unlockedUntil ∧
        0 < (Dashboard.handleDemoReveal b now).unlockedAmount) := by
  refine ⟨rfl, ?_, ?_⟩
  · simp [unlockSnapshot, formatEther_pos_iff]
  · cases b <;>
      simp [Dashboard.handleDemoReveal, Dashboard.demoBalance, Nat.le_add_right]

/-- C3 (amended): on a transport failure of the underlying reads, the
contract.ts checkIfTokensUnlocked propagates the error to its caller, while
the wallet.ts variant catches it and returns the fabricated all-zero locked
default snapshot in its place. -/
theorem checkIfTokensUnlocked_transport (e : String) (now : Nat) :
    Contract.checkIfTokensUnlocked (Except.error e) now = Except.error e
  ∧ Wallet.checkIfTokensUnlocked (Except.error e) now
      = Wallet.defaultUnlockStatus :=
  ⟨rfl, rfl⟩

/-- C3 counterexample: the wallet.ts checkIfTokensUnlocked, given an
unreachable backend, does not fail — it returns the all-zero, locked,
no-commit default snapshot in place of the error. -/
theorem wallet_check_swallows_transport_error :
    Wallet.checkIfTokensUnlocked (Except.error ("could not detect network"))
        1700000000
      = Wallet.defaultUnlockStatus := rfl

/-- C5: a demo reveal with outcome success opens the 24h window:
unlockedUntil = now + 86400, unlockedAmount equal to the demo account's full
balance, hasCommit = false; handleUnlock's demo branch writes the identical
snapshot. -/
theorem revealSuccess_opens_window (now : Nat) :
    (Dashboard.handleDemoReveal true now).unlockedUntil = now + 86400
  ∧ (Dashboard.handleDemoReveal true now).unlockedAmount = Dashboard.demoBalance
  ∧ (Dashboard.handleDemoReveal true now).hasCommit = false
  ∧ Dashboard.handleUnlockDemo now = Dashboard.handleDemoReveal true now :=
  ⟨rfl, rfl, rfl, rfl⟩

/-- C8: refresh only reads the ledger — it leaves the ledger state unchanged,
and a second refresh against the same ledger and clock yields a byte-identical
balance and UnlockStatus snapshot pair. -/
theorem refresh_pure_and_deterministic (c : ChainState) (bal : Nat) (now : Nat) :
    (Dashboard.refreshStatus c bal now).2 = c
  ∧ (Dashboard.refreshStatus (Dashboard.refreshStatus c bal now).2 bal now).1
      = (Dashboard.refreshStatus c bal now).1 :=
  ⟨rfl, rfl⟩

/-- C9: the demo success path stores nextAttemptTime = 0, so afterwards no
cooldown is in effect — inCooldown is false at every later clock reading —
and the commit guard lets a new demo commit proceed immediately. -/
theorem demoSuccess_no_cooldown (now now2 : Nat) (n : Int) :
    (Dashboard.handleDemoReveal true now).nextAttemptTime = 0
  ∧ CommitReveal.inCooldown now2
      (Dashboard.handleDemoReveal true now).nextAttemptTime = false
  ∧ CommitReveal.commitFlow true false false (Dashboard.handleDemoReveal true now)
      now2 true n = CommitReveal.CommitAction.demoSimulated := by
  refine ⟨rfl, ?_, ?_⟩
  · simp [CommitReveal.inCooldown, Dashboard.handleDemoReveal]
  · simp [CommitReveal.commitFlow, CommitReveal.commitDisabled,
      CommitReveal.inCooldown, Dashboard.handleDemoReveal]

/-- C2 (amended): each of the six contract-enforced rejection conditions is
mapped by revealNumber's catch block to a distinct failureReason, all of them
distinct from the catch-all "Transaction failed"; but a thrown error whose
message carries none of the six revert-reason substrings — a transport error
or a user rejection of signing — is returned through the same outcome-failure
channel as a success = false record with the catch-all reason, not surfaced
distinctly. -/
theorem revealNumber_failure_classification (msg : String)
    (h1 : includes msg ("Only one attempt per day") = false)
    (h2 : includes msg ("No commit found") = false)
    (h3 : includes msg ("Wait at least one block") = false)
    (h4 : includes msg ("Hash does not match") = false)
    (h5 : includes msg ("Commit expired") = false)
    (h6 : includes msg ("Unlock attempt failed") = false) :
    (([Contract.revealNumber (TxOutcome.thrown ("Only one attempt per day")),
       Contract.revealNumber (TxOutcome.thrown ("No commit found")),
       Contract.revealNumber (TxOutcome.thrown ("Wait at least one block")),
       Contract.revealNumber (TxOutcome.thrown ("Hash does not match")),
       Contract.revealNumber (TxOutcome.thrown ("Commit expired")),
       Contract.revealNumber (TxOutcome.thrown ("Unlock attempt failed"))].map
         RevealResult.error ++ [some ("Transaction failed")]).Pairwise (· ≠ ·))
  ∧ Contract.revealNumber (TxOutcome.thrown msg)
      = { success := false, hash := (""), error := some ("Transaction failed") } := by
  constructor
  · decide
  · simp [Contract.revealNumber, revealErrorMessage, h1, h2, h3, h4, h5, h6]

/-- Witness for the C2 theorem at the concrete wallet-rejection message. -/
theorem revealNumber_failure_classification_witness :
    includes ("User denied transaction signature.") ("Only one attempt per day")
        = false
  ∧ Contract.revealNumber
        (TxOutcome.thrown ("User denied transaction signature."))
      = { success := false, hash := (""), error := some ("Transaction failed") } :=
  ⟨by decide,
   (revealNumber_failure_classification ("User denied transaction signature.")
      (by decide) (by decide) (by decide) (by decide) (by decide) (by decide)).2⟩

/-- C2 counterexample: a user rejection of signing and a transport error are
both caught and returned as ordinary outcome-failure records — success =
false with a failureReason string, identical for the two — rather than being
surfaced distinctly from protocol outcome failures. -/
theorem revealNumber_hard_failure_conflated :
    Contract.revealNumber
        (TxOutcome.thrown
          ("MetaMask Tx Signature: User denied transaction signature."))
      = { success := false, hash := (""), error := some ("Transaction failed") }
  ∧ Contract.revealNumber (TxOutcome.thrown ("network connection lost"))
      = { success := false, hash := (""), error := some ("Transaction failed") } := by
  constructor <;> decide

/-- C4: a reveal completing with outcome failure clears the commit slot, sets
nextAttemptTime to now + 86400 and leaves the account locked — in the demo
backend (handleDemoReveal false) and in the spec-modelled live contract
transition observed through the unlock snapshot. -/
theorem revealFailure_consumes_attempt (c : ChainState) (now : Nat)
    (hlocked : (unlockSnapshot c now).isUnlocked = false) :
    (Dashboard.handleDemoReveal false now).hasCommit = false
  ∧ (Dashboard.handleDemoReveal false now).nextAttemptTime = now + 86400
  ∧ (Dashboard.handleDemoReveal false now).isUnlocked = false
  ∧ (unlockSnapshot (liveRevealFail c now) now).hasCommit = false
  ∧ (unlockSnapshot (liveRevealFail c now) now).nextAttemptTime = now + 86400
  ∧ (unlockSnapshot (liveRevealFail c now) now).isUnlocked = false := by
  refine ⟨rfl, rfl, rfl, by simp [unlockSnapshot, liveRevealFail], rfl, ?_⟩
  simpa [unlockSnapshot, liveRevealFail] using hlocked

/-- Witness for the C4 theorem at a concrete locked pre-state. -/
theorem revealFailure_consumes_attempt_witness :
    (unlockSnapshot ⟨0, 0, 0, 5⟩ 100).isUnlocked = false
  ∧ (unlockSnapshot (liveRevealFail ⟨0, 0, 0, 5⟩ 100) 100).isUnlocked = false :=
  ⟨by decide, (revealFailure_consumes_attempt ⟨0, 0, 0, 5⟩ 100 (by decide)).2.2.2.2.2⟩

/-- C6 (amended): while hasCommit is true a new commit attempt is blocked by
the local button guard in both modes, so no ledger mutation is dispatched;
the cooldown guard, however, blocks a commit only when demoMode is false. -/
theorem commit_guard_blocks (hasNumber cmt rvl : Bool) (s : UnlockStatus)
    (now : Nat) (demoMode : Bool) (n : Int) :
    (s.hasCommit = true →
      CommitReveal.commitFlow hasNumber cmt rvl s now demoMode n
        = CommitReveal.CommitAction.blocked)
  ∧ (demoMode = false →
      CommitReveal.inCooldown now s.nextAttemptTime = true →
      CommitReveal.commitFlow hasNumber cmt rvl s now demoMode n
        = CommitReveal.CommitAction.blocked) := by
  constructor
  · intro h
    simp [CommitReveal.commitFlow, CommitReveal.commitDisabled, h]
  · intro hd hc
    subst hd
    simp [CommitReveal.commitFlow, CommitReveal.commitDisabled, hc]

/-- Witness for the C6 theorem: a demo-mode commit with a live commit slot,
and a live-mode commit during cooldown, are both blocked. -/
theorem commit_guard_blocks_witness :
    CommitReveal.commitFlow true false false ⟨false, 0, 0, 0, true⟩ 7 true 42
      = CommitReveal.CommitAction.blocked
  ∧ CommitReveal.commitFlow true false false ⟨false, 0, 0, 99, false⟩ 7 false 42
      = CommitReveal.CommitAction.blocked :=
  ⟨(commit_guard_blocks true false false ⟨false, 0, 0, 0, true⟩ 7 true 42).1 rfl,
   (commit_guard_blocks true false false ⟨false, 0, 0, 99, false⟩ 7 false 42).2
     rfl (by decide)⟩

/-- C6 counterexample: in demo mode a commit attempted during cooldown
(now = 5 < nextAttemptTime = 100, no commit outstanding) is not blocked —
the guard is (inCooldown AND not demoMode), so the demo commit proceeds. -/
theorem commit_in_cooldown_not_blocked :
    CommitReveal.commitFlow true false false ⟨false, 0, 0, 100, false⟩ 5 true 42
      = CommitReveal.CommitAction.demoSimulated
  ∧ CommitReveal.commitFlow true false false ⟨false, 0, 0, 100, false⟩ 5 true 42
      ≠ CommitReveal.CommitAction.blocked := by
  constructor <;> decide

/-- C7: against the demo backend, a reveal attempted after the cooldown has
elapsed and with a valid matching commit succeeds exactly when the uniform
draw falls below 0.2, and the reported outcome is a function of the draw
alone — the same draw reproduces the same outcome at any clock reading. -/
theorem demoReveal_success_iff (s : UnlockStatus) (committed revealed : Int)
    (r : ℚ) (now : Nat)
    (hcommit : s.hasCommit = true)
    (hcool : CommitReveal.inCooldown now s.nextAttemptTime = false)
    (hmatch : committed = revealed) :
    (CommitReveal.demoRevealSuccess r = true ↔ r < 0.2)
  ∧ ∀ now2 : Nat,
      (CommitReveal.handleRevealDemo r now).2
        = (CommitReveal.handleRevealDemo r now2).2 := by
  exact ⟨by simp [CommitReveal.demoRevealSuccess], fun now2 => rfl⟩

/-- Witness for the C7 theorem at a concrete committed, cooled-down state
and the draw 1/10. -/
theorem demoReveal_success_iff_witness :
    (⟨false, 0, 0, 0, true⟩ : UnlockStatus).hasCommit = true
  ∧ CommitReveal.inCooldown 90000
      (⟨false, 0, 0, 0, true⟩ : UnlockStatus).nextAttemptTime = false
  ∧ (CommitReveal.demoRevealSuccess (1 / 10) = true ↔ (1 / 10 : ℚ) < 0.2) :=
  ⟨rfl, by decide,
   (demoReveal_success_iff ⟨false, 0, 0, 0, true⟩ 42 42 (1 / 10) 90000 rfl
      (by decide) rfl).1⟩

/-- C10: formatTimeRemaining returns "Expired" exactly when t - now ≤ 0, and
otherwise renders hours and minutes with h = (t-now)/3600 and
m = ((t-now) mod 3600)/60, the minutes component satisfying 0 ≤ m < 60. -/
theorem formatTimeRemaining_spec (t now : Int) :
    (Contract.formatTimeRemaining t now = ("Expired") ↔ t - now ≤ 0)
  ∧ (0 < t - now →
      Contract.formatTimeRemaining t now
          = toString ((t - now) / 3600) ++ ("h ")
              ++ toString ((t - now) % 3600 / 60) ++ ("m")
        ∧ 0 ≤ (t - now) % 3600 / 60
        ∧ (t - now) % 3600 / 60 < 60) := by
  constructor
  · constructor
    · intro h
      by_contra hpos
      push_neg at hpos
      unfold Contract.formatTimeRemaining at h
      rw [if_neg (by omega)] at h
      exact append_m_ne_expired _ h
    · intro h
      unfold Contract.formatTimeRemaining
      rw [if_pos h]
  · intro hpos
    refine ⟨?_, by omega, by omega⟩
    unfold Contract.formatTimeRemaining
    rw [if_neg (by omega)]

/-- Witness for the C10 theorem at t = 10000, now = 2678 (diff 7322 seconds,
two hours and two minutes). -/
theorem formatTimeRemaining_spec_witness :
    (Contract.formatTimeRemaining 10000 2678 = ("Expired") ↔
      (10000 : Int) - 2678 ≤ 0)
  ∧ (Contract.formatTimeRemaining 10000 2678
        = toString (((10000 : Int) - 2678) / 3600) ++ ("h ")
            ++ toString (((10000 : Int) - 2678) % 3600 / 60) ++ ("m")
      ∧ 0 ≤ ((10000 : Int) - 2678) % 3600 / 60
      ∧ ((10000 : Int) - 2678) % 3600 / 60 < 60) :=
  ⟨(formatTimeRemaining_spec 10000 2678).1,
   (formatTimeRemaining_spec 10000 2678).2 (by decide)⟩

end HPonzi
